import Mathlib

/-!
Verification of the playback-orchestration core of the `soi` music player.

The development shallowly embeds the Rust sources:
  * `src/song.rs`      — metadata extraction (`Song::from`, `Song::get_track_info`,
                         `Song::read_metadata`);
  * `src/playlist.rs`  — playlist construction and cursor movement
                         (`Playlist::from`, `next`, `prev`, `peek`, `current`);
  * `src/backend.rs`   — the GStreamer-facing playback backend (transport
                         commands, the gapless `enqueue`/`dequeue` pair,
                         seeking, state snapshots);
  * `src/main.rs`      — the user-input dispatch arm of the coordinator loop
                         and the fatal usage exit.

External collaborators (the GStreamer engine, the terminal, the filesystem)
are represented by explicit oracle data: bus messages arrive as lists, engine
queries and fallible engine calls are driven by explicit success flags, and
process exit is an `Except` error value.  Machine integers (`u32` track
numbers, `u64` nanosecond clock times) are modelled as `Nat`; the code never
relies on wraparound and `ClockTime::saturating_sub` is exactly `Nat`
subtraction.
-/

/-! ## Song (src/song.rs) -/

/-- Embeds `struct Song` from src/song.rs.  `path` is the canonical absolute
file path (command-line arguments are canonicalized before use, see
src/traits/arg_files.rs); `duration` is in nanoseconds. -/
structure Song where
  path : String
  album_artist : String
  album_title : String
  album_info : String
  artist : String
  title : String
  track_number : Nat
  year : Option Int
  duration : Nat
deriving DecidableEq, Repr

/-- The `Default` instance derived for `Song` in Rust: empty strings,
zero numbers, `None` year. -/
def Song.default : Song :=
  { path := "", album_artist := "", album_title := "", album_info := ""
    artist := "", title := "", track_number := 0, year := none, duration := 0 }

/-- Embeds GStreamer's `TagList` at the interface used by
`Song::read_metadata`: the six tag lookups the code performs, each of which
may be absent. -/
structure TagList where
  album : Option String
  artist : Option String
  album_artist : Option String
  title : Option String
  track_number : Option Nat
  datetime_year : Option Int
deriving DecidableEq, Repr

/-- The file-name component of a path: everything after the last `/`.
Mirrors `Path::file_name().unwrap_or_default()` for the canonical absolute
file paths this program feeds it (no trailing slash, no `..`). -/
def fileName (p : String) : String :=
  (p.splitOn ("/")).getLastD ""

/-- Mirrors `Path::file_stem()` on the file name: the portion before the
last `.`, except that a name with no `.`, or a hidden-file name whose only
`.` is the leading one, is returned whole.  The Rust code converts the
resulting `OsStr` through `format!("{:?}", _)` and `trim_matches('"')`,
which is the identity for names free of characters that `Debug` escapes. -/
def fileStem (p : String) : String :=
  let name := fileName p
  let parts := name.splitOn (".")
  if parts.length == 1 then name
  else if parts.length == 2 && parts.headD "" == "" then name
  else String.intercalate (".") parts.dropLast

/-- Embeds `Song::read_metadata` (src/song.rs lines 115-150): fills the
metadata fields from the tag list, in the source's assignment order (the
`album_artist` fallback reads the just-assigned `artist`, the `title`
fallback reads `self.path`, and `album_info` is formatted from the
just-assigned fields). -/
def Song.read_metadata (s : Song) (tags : TagList) : Song :=
  let album_title :=
    match tags.album with
    | some album => album
    | none => "Unknown album"
  let artist :=
    match tags.artist with
    | some artist => artist
    | none => "Unknown artist"
  let album_artist :=
    match tags.album_artist with
    | some artist => artist
    | none => artist
  let title :=
    match tags.title with
    | some title => title
    | none => fileStem s.path
  let track_number := (tags.track_number).getD 0
  let year := tags.datetime_year
  let album_info :=
    match year with
    | some year => album_artist ++ ": " ++ album_title ++ " (" ++ toString year ++ ")"
    | none => album_artist ++ ": " ++ album_title
  { s with
    album_title := album_title, artist := artist, album_artist := album_artist,
    title := title, track_number := track_number, year := year,
    album_info := album_info }

/-! ## Metadata extraction (src/song.rs, `Song::from` / `get_track_info`)

The GStreamer bus is an external collaborator; one loop iteration of
`get_track_info` sees one bus message together with the result the
`query_duration` call would return at that moment.  Fallibility of
`setup_pipeline()` and of `playbin.bus()` is a boolean oracle. -/

/-- A GStreamer bus message as `get_track_info` distinguishes them:
a tag message carrying a tag list, an error message, or anything else. -/
inductive GstMsg where
  | Tag (tags : TagList)
  | Error
  | Other
deriving DecidableEq, Repr

/-- Whether a bus message is an error message. -/
def GstMsg.isError : GstMsg → Bool
  | .Error => true
  | _ => false

/-- Whether a bus message is a tag message. -/
def GstMsg.isTag : GstMsg → Bool
  | .Tag _ => true
  | _ => false

/-- One iteration of the `get_track_info` message loop: the bus message
received, and what `query_duration` would report at that iteration
(in nanoseconds, `none` when the duration is not yet known). -/
structure BusStep where
  msg : GstMsg
  queryDuration : Option Nat
deriving DecidableEq, Repr

/-- The tag-accumulator update of one loop iteration of `get_track_info`
(src/song.rs lines 82-84): a tag message replaces the accumulator, any
other message leaves it. -/
def stepTags (step : BusStep) (tags : Option TagList) : Option TagList :=
  match step.msg with
  | GstMsg.Tag t => some t
  | _ => tags

/-- The duration-accumulator update of one loop iteration of
`get_track_info` (src/song.rs lines 94-98): the duration is queried only
while still unknown. -/
def stepDur (step : BusStep) (duration : Option Nat) : Option Nat :=
  match duration with
  | none => step.queryDuration
  | some d => some d

/-- The message loop of `Song::get_track_info` (src/song.rs lines 80-103),
carrying the `duration` and `tags` accumulators.  An error message breaks
out of the loop before the duration query of that iteration; otherwise a
tag message updates `tags`, the duration is queried while still unknown,
and the loop ends as soon as both are present. -/
def trackInfoLoop : List BusStep → Option Nat → Option TagList → Option Nat × Option TagList
  | [], duration, tags => (duration, tags)
  | step :: rest, duration, tags =>
    if step.msg.isError then (duration, tags)
    else
      if (stepDur step duration).isSome && (stepTags step tags).isSome then
        (stepDur step duration, stepTags step tags)
      else trackInfoLoop rest (stepDur step duration) (stepTags step tags)

/-- Embeds `Song::get_track_info` (src/song.rs lines 66-111): `busOk` is
whether `playbin.bus()` returned a bus; the result is present only when the
loop ended with both a duration and a tag list. -/
def get_track_info (busOk : Bool) (steps : List BusStep) : Option (Nat × TagList) :=
  if busOk then
    match trackInfoLoop steps none none with
    | (some d, some t) => some (d, t)
    | _ => none
  else none

/-- Embeds `Song::from` (src/song.rs lines 33-46): `pipelineOk` is whether
`setup_pipeline()` succeeded; on success the song is built from the default
record with `path` and `duration` set, then `read_metadata` fills the rest. -/
def Song.fromPath (path : String) (pipelineOk busOk : Bool) (steps : List BusStep) :
    Option Song :=
  if pipelineOk then
    (get_track_info busOk steps).map (fun dt =>
      Song.read_metadata { Song.default with path := path, duration := dt.1 } dt.2)
  else none

/-! ## Playlist (src/playlist.rs)

`Playlist::from` dispatches one extraction task per `(argument-index, file)`
pair to the worker pool and collects `(argument-index, Option<Song>)` results
from the completion channel; the order in which they arrive on the channel is
scheduler-dependent.  The embedding therefore takes the collected result list
as input and the completion-order independence is quantified as invariance
under permutation of that list. -/

/-- Embeds `print_usage_and_exit` / `eprintln`-then-exit (src/main.rs lines
111-118): the lines written to the error stream and the process exit code. -/
structure FatalExit where
  stderr : List String
  code : Nat
deriving DecidableEq, Repr

/-- The usage message and exit code of `print_usage_and_exit`
(src/main.rs lines 111-118). -/
def print_usage_and_exit : FatalExit :=
  { stderr :=
      ["Usage: soi FILES...\n",
       "      --help                   Show this help message",
       "      --version                Display version information"],
    code := 1 }

/-- Embeds `struct Playlist` (src/playlist.rs). -/
structure Playlist where
  store : List Song
  currently_playing : Nat
deriving DecidableEq, Repr

/-- The `filter_map(|(i, song)| Some((i, song?)))` step of `Playlist::from`
(src/playlist.rs line 58): results whose extraction failed are discarded. -/
def survivors (results : List (Nat × Option Song)) : List (Nat × Song) :=
  results.filterMap (fun e => e.2.map (fun s => (e.1, s)))

/-- The sort key of `Playlist::from` (src/playlist.rs line 59): the
argument index, then the album-info string, then the track number,
compared lexicographically as Rust compares tuples. -/
def entryKey (e : Nat × Song) : Lex (Nat × Lex (String × Nat)) :=
  toLex (e.1, toLex (e.2.album_info, e.2.track_number))

/-- The ordering `sorted_by_key` sorts by: comparison of the sort keys. -/
def entryLe (a b : Nat × Song) : Prop :=
  entryKey a ≤ entryKey b

/-- Strict version of `entryLe`, used to show that the sorted order is
unique when no two entries share all three key components. -/
def entryLt (a b : Nat × Song) : Prop :=
  entryKey a < entryKey b

instance : DecidableRel entryLe :=
  fun a b => inferInstanceAs (Decidable (entryKey a ≤ entryKey b))

instance : IsTotal (Nat × Song) entryLe :=
  ⟨fun a b => le_total (entryKey a) (entryKey b)⟩

instance : IsTrans (Nat × Song) entryLe :=
  ⟨fun _ _ _ h1 h2 => le_trans h1 h2⟩

instance : IsAntisymm (Nat × Song) entryLt :=
  ⟨fun _ _ h1 h2 => ((lt_asymm h1) h2).elim⟩

/-- The sorted `(argument-index, Song)` entries of `Playlist::from`
(src/playlist.rs lines 56-61 before the final projection to `Song`):
a stable sort by `entryKey`, as `itertools::sorted_by_key` performs. -/
def sortedEntries (results : List (Nat × Option Song)) : List (Nat × Song) :=
  List.insertionSort entryLe (survivors results)

/-- Embeds `Playlist::from` (src/playlist.rs lines 28-72) from the collected
worker results onward: discard failures, sort by (argument index, album-info
string, track number), project to the songs, and fail fatally — printing a
diagnostic followed by the usage message, then exiting with code 1 — when no
playable file survived.  (`from` is a reserved word in Lean, hence the
name.) -/
def Playlist.fromResults (results : List (Nat × Option Song)) : Except FatalExit Playlist :=
  let store := (sortedEntries results).map Prod.snd
  if store.isEmpty then
    Except.error
      { stderr := "No playable files provided\n" :: print_usage_and_exit.stderr,
        code := print_usage_and_exit.code }
  else
    Except.ok { store := store, currently_playing := 0 }

/-- Embeds `Playlist::current` (src/playlist.rs lines 76-78). -/
def Playlist.current (p : Playlist) : Option Song :=
  p.store[p.currently_playing]?

/-- Embeds `Playlist::next` (src/playlist.rs lines 83-87): look up the song
after the cursor; only if it exists, advance the cursor.  Returns the
looked-up song together with the updated playlist (the Rust method mutates
`self`). -/
def Playlist.next (p : Playlist) : Option Song × Playlist :=
  match p.store[p.currently_playing + 1]? with
  | none => (none, p)
  | some s => (some s, { p with currently_playing := p.currently_playing + 1 })

/-- Embeds `Playlist::prev` (src/playlist.rs lines 92-95): `checked_sub`
returns early at cursor 0; otherwise the cursor is decremented and the song
at the new cursor returned. -/
def Playlist.prev (p : Playlist) : Option Song × Playlist :=
  match p.currently_playing with
  | 0 => (none, p)
  | k + 1 => (p.store[k]?, { p with currently_playing := k })

/-- Embeds `Playlist::peek` (src/playlist.rs lines 100-102): the song after
the cursor, without moving the cursor. -/
def Playlist.peek (p : Playlist) : Option Song :=
  p.store[p.currently_playing + 1]?

/-! ## Backend (src/backend.rs)

The GStreamer `playbin` element is an external collaborator; its observable
interface here is the `uri` and `mute` properties, the element state, and the
position query.  Engine calls that the Rust code propagates as `Result`
(`set_state`, property get/set) may fail; an `EngineFaults` oracle records
which of those calls would succeed.  Messages sent to `main()` over
`main_tx` are returned as lists. -/

/-- The GStreamer element states the code distinguishes. -/
inductive GstState where
  | Null
  | Ready
  | Paused
  | Playing
deriving DecidableEq, Repr

/-- Embeds `enum BackendMessage` (src/backend.rs lines 28-33); the payload of
`State` is inlined as the three snapshot components. -/
inductive BackendMessage where
  | ReachedEndOfSong
  | ReachedEndOfPlaylist
  | RequestNextSong
  | State (position : Nat) (playing : Bool) (muted : Bool)
deriving DecidableEq, Repr

/-- Embeds `struct BackendState` (src/backend.rs lines 21-25); `position`
in nanoseconds. -/
structure BackendState where
  position : Nat
  playing : Bool
  muted : Bool
deriving DecidableEq, Repr

/-- Embeds `struct Backend` (src/backend.rs lines 14-18) together with the
observable playbin state: the `uri` and `mute` properties, the element
state, what a position query would currently report, and the shared
`next_uri` slot. -/
structure Backend where
  uri : Option String
  gstState : GstState
  mute : Bool
  queryPosition : Option Nat
  next_uri : Option String
deriving DecidableEq, Repr

/-- Success oracle for the fallible engine calls: one flag per call the Rust
code propagates as a `Result` (element state changes per target state, the
`uri` property set, and the `mute` property get/set). -/
structure EngineFaults where
  set_null_ok : Bool
  set_ready_ok : Bool
  set_paused_ok : Bool
  set_playing_ok : Bool
  set_uri_ok : Bool
  mute_get_ok : Bool
  mute_set_ok : Bool
deriving DecidableEq, Repr

/-- Whether a `set_state` call targeting `s` succeeds under the oracle. -/
def EngineFaults.stateOk (f : EngineFaults) : GstState → Bool
  | .Null => f.set_null_ok
  | .Ready => f.set_ready_ok
  | .Paused => f.set_paused_ok
  | .Playing => f.set_playing_ok

/-- An engine call failure, surfaced by the Rust code as an `Err`. -/
inductive EngineError where
  | err
deriving DecidableEq, Repr

/-- A `playbin.set_state(s)` call: on success the element state becomes `s`. -/
def Backend.set_state (b : Backend) (f : EngineFaults) (s : GstState) :
    Except EngineError Backend :=
  if f.stateOk s then Except.ok { b with gstState := s } else Except.error EngineError.err

/-- A `playbin.set_property("uri", u)` call that propagates its error. -/
def Backend.set_uri_prop (b : Backend) (f : EngineFaults) (u : String) :
    Except EngineError Backend :=
  if f.set_uri_ok then Except.ok { b with uri := some u } else Except.error EngineError.err

/-- Embeds `Path::to_uri` (src/traits/path_to_uri.rs), a thin wrapper over
`glib::filename_to_uri`; percent-encoding of special characters is outside
the model, so the scheme is prefixed to the canonical absolute path. -/
def to_uri (path : String) : String :=
  "file://" ++ path

/-- Embeds `Backend::playing` (src/backend.rs lines 96-98): true exactly
when the element state is not `Paused`. -/
def Backend.playing (b : Backend) : Bool :=
  !(b.gstState == GstState.Paused)

/-- Embeds `Backend::muted` (src/backend.rs lines 101-107): the `mute`
property when its read succeeds, `false` when it fails. -/
def Backend.muted (b : Backend) (f : EngineFaults) : Bool :=
  if f.mute_get_ok then b.mute else false

/-- Embeds `Backend::position` (src/backend.rs lines 149-154):
`query_position().unwrap_or_default()`, i.e. 0 when the query fails. -/
def Backend.position (b : Backend) : Nat :=
  b.queryPosition.getD 0

/-- Embeds `Backend::state` (src/backend.rs lines 157-163). -/
def Backend.state (b : Backend) (f : EngineFaults) : BackendState :=
  { position := b.position, playing := b.playing, muted := b.muted f }

/-- Embeds `Backend::play` (src/backend.rs lines 110-121): with no song it
does nothing; otherwise Ready, set the URI, Playing — each step may fail and
aborts the rest — then a `RequestNextSong` message is sent. -/
def Backend.play (b : Backend) (f : EngineFaults) (song : Option Song) :
    Except EngineError (Backend × List BackendMessage) :=
  match song with
  | none => Except.ok (b, [])
  | some s =>
    match b.set_state f GstState.Ready with
    | Except.error e => Except.error e
    | Except.ok b1 =>
      match b1.set_uri_prop f (to_uri s.path) with
      | Except.error e => Except.error e
      | Except.ok b2 =>
        match b2.set_state f GstState.Playing with
        | Except.error e => Except.error e
        | Except.ok b3 => Except.ok (b3, [BackendMessage.RequestNextSong])

/-- Embeds `Backend::stop` (src/backend.rs lines 124-130): set the pipeline
to `Null` (failure aborts), then send `ReachedEndOfPlaylist`. -/
def Backend.stop (b : Backend) (f : EngineFaults) :
    Except EngineError (Backend × List BackendMessage) :=
  match b.set_state f GstState.Null with
  | Except.error e => Except.error e
  | Except.ok b1 => Except.ok (b1, [BackendMessage.ReachedEndOfPlaylist])

/-- Embeds `Backend::toggle_mute` (src/backend.rs lines 133-137): read the
`mute` property, then write its negation; either call may fail. -/
def Backend.toggle_mute (b : Backend) (f : EngineFaults) : Except EngineError Backend :=
  if f.mute_get_ok then
    if f.mute_set_ok then Except.ok { b with mute := !b.mute }
    else Except.error EngineError.err
  else Except.error EngineError.err

/-- Embeds `Backend::toggle_pause` (src/backend.rs lines 140-146):
`Playing` goes to `Paused`; every other state goes to `Playing`. -/
def Backend.toggle_pause (b : Backend) (f : EngineFaults) : Except EngineError Backend :=
  match b.gstState with
  | GstState.Playing => b.set_state f GstState.Paused
  | _ => b.set_state f GstState.Playing

/-- Embeds `Backend::enqueue` (src/backend.rs lines 167-169): overwrite the
shared `next_uri` slot with the song's URI (or clear it). -/
def Backend.enqueue (b : Backend) (song : Option Song) : Backend :=
  { b with next_uri := song.map (fun s => to_uri s.path) }

/-- Embeds `Backend::dequeue` (src/backend.rs lines 174-186): when the slot
holds a URI, set it as the playbin `uri` property and send
`ReachedEndOfSong` then `RequestNextSong`; when the slot is empty, do
nothing.  (A failing property set panics via `expect` and is outside the
recoverable model.) -/
def Backend.dequeue (b : Backend) : Backend × List BackendMessage :=
  match b.next_uri with
  | none => (b, [])
  | some u =>
    ({ b with uri := some u },
     [BackendMessage.ReachedEndOfSong, BackendMessage.RequestNextSong])

/-- Five seconds as a GStreamer `ClockTime` (nanoseconds),
`ClockTime::from_seconds(5)`. -/
def fiveSeconds : Nat := 5000000000

/-- Embeds `Backend::seek_forward` (src/backend.rs lines 189-195): when the
position query succeeds, a seek to `t + 5 s` is issued (`seek_to` swallows
its own errors); the returned value is the issued seek target.  The method
always returns `Ok`. -/
def Backend.seek_forward (b : Backend) : Except EngineError (Option Nat) :=
  Except.ok (b.queryPosition.map (fun t => t + fiveSeconds))

/-- Embeds `Backend::seek_backward` (src/backend.rs lines 198-205):
`saturating_sub` of five seconds, which truncated `Nat` subtraction models
exactly; always returns `Ok`. -/
def Backend.seek_backward (b : Backend) : Except EngineError (Option Nat) :=
  Except.ok (b.queryPosition.map (fun t => t - fiveSeconds))

/-! ## User-input dispatch (src/main.rs lines 56-71)

The coordinator's input arm maps each user input to a backend call and
unwraps the call's `Result` with `.expect("Error while handling user
input")` — an `Err` therefore panics the process.  For `Next`/`Prev` the
playlist cursor is moved first and the looked-up song handed to `play`. -/

/-- Embeds `enum UserInput` (src/input.rs). -/
inductive UserInput where
  | Mute
  | Pause
  | Stop
  | Next
  | Prev
  | SeekBackward
  | SeekForward
deriving DecidableEq, Repr

/-- The process crash caused by the `.expect` call in the input handler. -/
inductive Crash where
  | panicked
deriving DecidableEq, Repr

/-- Embeds the input-handling closure of `main()` (src/main.rs lines 56-71):
the backend call selected by the input, with the playlist mutation for
`Next`/`Prev` applied first; an `Err` from the backend call hits the
`.expect` and panics.  On success the handler returns the new backend and
playlist states and the messages sent, and the event loop continues
(`glib::Continue(true)`). -/
def handleUserInput (b : Backend) (pl : Playlist) (f : EngineFaults) (i : UserInput) :
    Except Crash (Backend × Playlist × List BackendMessage) :=
  let step : Playlist × Except EngineError (Backend × List BackendMessage) :=
    match i with
    | UserInput.Mute => (pl, (b.toggle_mute f).map (fun b1 => (b1, [])))
    | UserInput.Pause => (pl, (b.toggle_pause f).map (fun b1 => (b1, [])))
    | UserInput.Stop => (pl, b.stop f)
    | UserInput.Next => ((pl.next).2, b.play f (pl.next).1)
    | UserInput.Prev => ((pl.prev).2, b.play f (pl.prev).1)
    | UserInput.SeekBackward => (pl, (b.seek_backward).map (fun _ => (b, [])))
    | UserInput.SeekForward => (pl, (b.seek_forward).map (fun _ => (b, [])))
  match step.2 with
  | Except.ok br => Except.ok (br.1, step.1, br.2)
  | Except.error _ => Except.error Crash.panicked

/-! ## Concrete instances used by the witnesses -/

/-- A backend freshly created by `Backend::new`: no URI, `Null` state,
unmuted, no position yet, empty gapless slot. -/
def b0 : Backend :=
  { uri := none, gstState := GstState.Null, mute := false,
    queryPosition := none, next_uri := none }

/-- A concrete song on album identity "Artist: Album", track 1. -/
def songA : Song :=
  { Song.default with path := "/m/a.mp3", album_info := "Artist: Album", track_number := 1 }

/-- A concrete song on album identity "Artist: Album", track 2. -/
def songB : Song :=
  { Song.default with path := "/m/b.mp3", album_info := "Artist: Album", track_number := 2 }

/-- An oracle under which every fallible engine call fails. -/
def f_allfail : EngineFaults :=
  { set_null_ok := false, set_ready_ok := false, set_paused_ok := false,
    set_playing_ok := false, set_uri_ok := false, mute_get_ok := false,
    mute_set_ok := false }

/-- An oracle under which every fallible engine call succeeds. -/
def f_allok : EngineFaults :=
  { set_null_ok := true, set_ready_ok := true, set_paused_ok := true,
    set_playing_ok := true, set_uri_ok := true, mute_get_ok := true,
    mute_set_ok := true }

/-- A two-song playlist with the cursor at the first song. -/
def pl2 : Playlist := { store := [songA, songB], currently_playing := 0 }

/-- A two-song playlist with the cursor at the second song. -/
def pl2' : Playlist := { store := [songA, songB], currently_playing := 1 }

/-- A tag list with every tag absent. -/
def tagsEmpty : TagList :=
  { album := none, artist := none, album_artist := none, title := none,
    track_number := none, datetime_year := none }

/-! ## C6 — metadata field fallbacks -/

/-- C6: for every tag set, the constructed metadata satisfies the documented
fallbacks — missing album title yields "Unknown album", missing artist
"Unknown artist", missing album-artist falls back to the extracted artist,
missing title to the file's base name with the extension stripped, missing
track number to 0 — and the album-info string is
"album-artist: album-title (year)" when a year tag is present and
"album-artist: album-title" otherwise. -/
theorem song_metadata_fallbacks (s0 : Song) (tags : TagList) :
    ((s0.read_metadata tags).album_title = tags.album.getD ("Unknown album")) ∧
    ((s0.read_metadata tags).artist = tags.artist.getD ("Unknown artist")) ∧
    ((s0.read_metadata tags).album_artist =
      tags.album_artist.getD (tags.artist.getD ("Unknown artist"))) ∧
    ((s0.read_metadata tags).title = tags.title.getD (fileStem s0.path)) ∧
    ((s0.read_metadata tags).track_number = tags.track_number.getD 0) ∧
    (∀ y, tags.datetime_year = some y →
      (s0.read_metadata tags).album_info =
        (s0.read_metadata tags).album_artist ++ ": " ++
          (s0.read_metadata tags).album_title ++ " (" ++ toString y ++ ")") ∧
    (tags.datetime_year = none →
      (s0.read_metadata tags).album_info =
        (s0.read_metadata tags).album_artist ++ ": " ++
          (s0.read_metadata tags).album_title) := by
  obtain ⟨alb, art, aart, tit, trk, yr⟩ := tags
  cases alb <;> cases art <;> cases aart <;> cases tit <;> cases yr <;>
    simp [Song.read_metadata]

/-- Witness for C6: the album-info format at a concrete tag set with a year
and at one without. -/
theorem song_metadata_fallbacks_witness :
    ((songA.read_metadata { tagsEmpty with datetime_year := some 1999 }).album_info =
      (songA.read_metadata { tagsEmpty with datetime_year := some 1999 }).album_artist ++
        ": " ++
        (songA.read_metadata { tagsEmpty with datetime_year := some 1999 }).album_title ++
        " (" ++ toString (1999 : Int) ++ ")") ∧
    ((songA.read_metadata tagsEmpty).album_info =
      (songA.read_metadata tagsEmpty).album_artist ++ ": " ++
        (songA.read_metadata tagsEmpty).album_title) :=
  ⟨(song_metadata_fallbacks songA { tagsEmpty with datetime_year := some 1999 }).2.2.2.2.2.1
      1999 rfl,
   (song_metadata_fallbacks songA tagsEmpty).2.2.2.2.2.2 rfl⟩

/-! ## C7 — seeking is offset by five seconds and clamped at zero -/

/-- C7: for every current position `t`, `seek_backward` requests `t` minus
five seconds clamped below at zero and `seek_forward` requests `t` plus five
seconds; when the position cannot be queried, neither issues a seek. -/
theorem backend_seek_clamped (b : Backend) :
    (b.queryPosition = none →
      b.seek_forward = Except.ok none ∧ b.seek_backward = Except.ok none) ∧
    (∀ t, b.queryPosition = some t →
      b.seek_forward = Except.ok (some (t + fiveSeconds)) ∧
      b.seek_backward = Except.ok (some (t - fiveSeconds)) ∧
      ((t - fiveSeconds : Nat) : Int) = max (((t : Int)) - ((fiveSeconds : Nat) : Int)) 0) := by
  constructor
  · intro h
    simp [Backend.seek_forward, Backend.seek_backward, h]
  · intro t h
    refine ⟨by simp [Backend.seek_forward, h], by simp [Backend.seek_backward, h], ?_⟩
    omega

/-- Witness for C7 at position 3 ns (clamped to 0) and at an unqueryable
position. -/
theorem backend_seek_clamped_witness :
    (({ b0 with queryPosition := some 3 } : Backend).seek_backward =
      Except.ok (some (3 - fiveSeconds))) ∧
    (b0.seek_forward = Except.ok none) :=
  ⟨((backend_seek_clamped { b0 with queryPosition := some 3 }).2 3 rfl).2.1,
   ((backend_seek_clamped b0).1 rfl).1⟩

/-! ## C10 — `playing()` is "not paused" -/

/-- C10: `playing()` returns true exactly when the engine state is not
`Paused`; in particular it is true in the `Null` (stopped / never started)
and `Ready` states, and the state snapshot reports exactly this value. -/
theorem backend_playing_iff (b : Backend) (f : EngineFaults) :
    (b.playing = true ↔ b.gstState ≠ GstState.Paused) ∧
    ((b.state f).playing = b.playing) ∧
    (({ b with gstState := GstState.Null } : Backend).playing = true) ∧
    (({ b with gstState := GstState.Ready } : Backend).playing = true) := by
  refine ⟨?_, rfl, rfl, rfl⟩
  cases hg : b.gstState <;> simp [Backend.playing, hg]

/-- Witness for C10 at the freshly created backend (state `Null`): it
reports playing. -/
theorem backend_playing_iff_witness :
    (b0.playing = true ↔ b0.gstState ≠ GstState.Paused) ∧
    (b0.state f_allok).playing = b0.playing :=
  ⟨(backend_playing_iff b0 f_allok).1, (backend_playing_iff b0 f_allok).2.1⟩

/-! ## C2 — enqueue/dequeue round trip -/

/-- C2: after `enqueue(Some(t))`, a `dequeue()` sets the engine URI to `t`'s
URI and emits exactly one `ReachedEndOfSong` followed by exactly one
`RequestNextSong`; a `dequeue()` with an empty pending slot changes nothing
and emits no message. -/
theorem backend_enqueue_dequeue_roundtrip (b : Backend) (t : Song) :
    (((b.enqueue (some t)).dequeue).1.uri = some (to_uri t.path)) ∧
    (((b.enqueue (some t)).dequeue).2 =
      [BackendMessage.ReachedEndOfSong, BackendMessage.RequestNextSong]) ∧
    (∀ b1 : Backend, b1.next_uri = none → b1.dequeue = (b1, [])) := by
  refine ⟨rfl, rfl, ?_⟩
  intro b1 h
  simp [Backend.dequeue, h]

/-- Witness for C2 at a fresh backend and the concrete song `songA`. -/
theorem backend_enqueue_dequeue_roundtrip_witness :
    (((b0.enqueue (some songA)).dequeue).1.uri = some (to_uri songA.path)) ∧
    (b0.dequeue = (b0, [])) :=
  ⟨(backend_enqueue_dequeue_roundtrip b0 songA).1,
   (backend_enqueue_dequeue_roundtrip b0 songA).2.2 b0 rfl⟩

/-! ## C9 — only `enqueue` writes the pending slot -/

/-- A successful `set_state` call leaves the pending `next_uri` slot
untouched. -/
lemma set_state_preserves_next_uri (b : Backend) (f : EngineFaults) (s : GstState)
    (b1 : Backend) (h : b.set_state f s = Except.ok b1) : b1.next_uri = b.next_uri := by
  unfold Backend.set_state at h
  split at h
  · injection h with h
    subst h
    rfl
  · exact absurd h (by simp)

/-- C9: `dequeue` never modifies the pending slot — after
`enqueue(Some(t))` then `dequeue()` the slot still holds `t`'s URI, so a
second `dequeue()` sets the same URI and emits both messages again — and
the other backend commands (`enqueue` excepted) leave the slot unchanged. -/
theorem backend_dequeue_frame (b : Backend) (t : Song) (f : EngineFaults) (s : Option Song) :
    ((b.dequeue).1.next_uri = b.next_uri) ∧
    (((b.enqueue (some t)).dequeue).1.next_uri = some (to_uri t.path)) ∧
    ((((b.enqueue (some t)).dequeue).1.dequeue).1.uri = some (to_uri t.path)) ∧
    ((((b.enqueue (some t)).dequeue).1.dequeue).2 =
      [BackendMessage.ReachedEndOfSong, BackendMessage.RequestNextSong]) ∧
    ((b.enqueue s).next_uri = s.map (fun x => to_uri x.path)) ∧
    (∀ b1, b.toggle_mute f = Except.ok b1 → b1.next_uri = b.next_uri) ∧
    (∀ b1, b.toggle_pause f = Except.ok b1 → b1.next_uri = b.next_uri) ∧
    (∀ r, b.stop f = Except.ok r → r.1.next_uri = b.next_uri) ∧
    (∀ r, b.play f s = Except.ok r → r.1.next_uri = b.next_uri) := by
  refine ⟨?_, rfl, rfl, rfl, rfl, ?_, ?_, ?_, ?_⟩
  · cases h : b.next_uri <;> simp [Backend.dequeue, h]
  · intro b1 h
    unfold Backend.toggle_mute at h
    split at h
    · split at h
      · injection h with h
        subst h
        rfl
      · exact absurd h (by simp)
    · exact absurd h (by simp)
  · intro b1 h
    unfold Backend.toggle_pause at h
    split at h
    · exact set_state_preserves_next_uri _ _ _ _ h
    · exact set_state_preserves_next_uri _ _ _ _ h
  · intro r h
    unfold Backend.stop at h
    split at h
    · exact absurd h (by simp)
    case _ b1 h1 =>
      injection h with h
      subst h
      exact set_state_preserves_next_uri _ _ _ _ h1
  · intro r h
    cases s with
    | none =>
      simp only [Backend.play] at h
      injection h with h
      subst h
      rfl
    | some sg =>
      simp only [Backend.play] at h
      split at h
      · exact absurd h (by simp)
      case _ c1 h1 =>
        split at h
        · exact absurd h (by simp)
        case _ c2 h2 =>
          split at h
          · exact absurd h (by simp)
          case _ c3 h3 =>
            injection h with h
            subst h
            have e3 := set_state_preserves_next_uri _ _ _ _ h3
            have e1 := set_state_preserves_next_uri _ _ _ _ h1
            have e2 : c2.next_uri = c1.next_uri := by
              unfold Backend.set_uri_prop at h2
              split at h2
              · injection h2 with h2
                subst h2
                rfl
              · exact absurd h2 (by simp)
            simp only [e3, e2, e1]

/-- Witness for C9: a double dequeue after one enqueue on a fresh backend,
and slot preservation across a successful `play`. -/
theorem backend_dequeue_frame_witness :
    ((((b0.enqueue (some songA)).dequeue).1.dequeue).1.uri = some (to_uri songA.path)) ∧
    ((((b0.enqueue (some songA)).dequeue).1.dequeue).2 =
      [BackendMessage.ReachedEndOfSong, BackendMessage.RequestNextSong]) ∧
    (∀ r, b0.play f_allok (some songB) = Except.ok r → r.1.next_uri = b0.next_uri) :=
  ⟨(backend_dequeue_frame b0 songA f_allok (some songB)).2.2.1,
   (backend_dequeue_frame b0 songA f_allok (some songB)).2.2.2.1,
   (backend_dequeue_frame b0 songA f_allok (some songB)).2.2.2.2.2.2.2.2⟩

/-! ## C8 — an empty surviving set is a fatal usage exit -/

/-- C8: when every extraction result has been discarded, `Playlist::from`
does not produce a playlist: it reports the diagnostic and the usage message
on the error stream and exits with a non-zero code. -/
theorem playlist_empty_fatal (results : List (Nat × Option Song))
    (h : survivors results = []) :
    (Playlist.fromResults results =
      Except.error
        { stderr := "No playable files provided\n" :: print_usage_and_exit.stderr,
          code := print_usage_and_exit.code }) ∧
    (print_usage_and_exit.code ≠ 0) ∧
    ("No playable files provided\n" ∈
      ("No playable files provided\n" :: print_usage_and_exit.stderr)) ∧
    ("Usage: soi FILES...\n" ∈
      ("No playable files provided\n" :: print_usage_and_exit.stderr)) := by
  refine ⟨?_, by decide, by simp, by simp [print_usage_and_exit]⟩
  unfold Playlist.fromResults sortedEntries
  rw [h]
  rfl

/-- Witness for C8: a single failed extraction result. -/
theorem playlist_empty_fatal_witness :
    Playlist.fromResults [((0 : Nat), (none : Option Song))] =
      Except.error
        { stderr := "No playable files provided\n" :: print_usage_and_exit.stderr,
          code := print_usage_and_exit.code } :=
  (playlist_empty_fatal [((0 : Nat), (none : Option Song))] rfl).1

/-! ## C4 — engine-command failure during input handling is NOT recoverable

The claim says a failed engine call behind a user-input command is abandoned
without crashing the program.  The seek commands do swallow their engine
errors (`seek_to` discards them and `query_position` failure skips the
seek), but `toggle_mute`, `toggle_pause`, `stop` and `play` propagate their
`Err` to the input-handling closure of `main()`, whose
`.expect("Error while handling user input")` panics — the process crashes
instead of continuing. -/

/-- Counterexample to C4 as stated: with a failing `mute` property read, the
Mute input makes the input handler panic (the process crashes) rather than
abandon the action and continue. -/
theorem input_failure_crashes :
    handleUserInput b0 pl2 f_allfail UserInput.Mute = Except.error Crash.panicked := rfl

/-- C4 (amended): failures of the two seek commands are swallowed and the
event loop continues, but an engine-call failure under `toggle_mute`,
`toggle_pause`, `stop` or `play` propagates to the input handler's
`.expect`, which panics and terminates the program. -/
theorem input_failure_behavior (b : Backend) (pl : Playlist) (f : EngineFaults) :
    (handleUserInput b pl f UserInput.SeekForward = Except.ok (b, pl, [])) ∧
    (handleUserInput b pl f UserInput.SeekBackward = Except.ok (b, pl, [])) ∧
    (∀ e, b.toggle_mute f = Except.error e →
      handleUserInput b pl f UserInput.Mute = Except.error Crash.panicked) ∧
    (∀ e, b.toggle_pause f = Except.error e →
      handleUserInput b pl f UserInput.Pause = Except.error Crash.panicked) ∧
    (∀ e, b.stop f = Except.error e →
      handleUserInput b pl f UserInput.Stop = Except.error Crash.panicked) ∧
    (∀ e, b.play f (pl.next).1 = Except.error e →
      handleUserInput b pl f UserInput.Next = Except.error Crash.panicked) ∧
    (∀ e, b.play f (pl.prev).1 = Except.error e →
      handleUserInput b pl f UserInput.Prev = Except.error Crash.panicked) := by
  refine ⟨rfl, rfl, ?_, ?_, ?_, ?_, ?_⟩ <;>
    (intro e h; simp [handleUserInput, h, Except.map])

/-- Witness for C4's amended theorem: under the all-failing oracle, seeks
still succeed while each of the other five commands panics the handler. -/
theorem input_failure_behavior_witness :
    (handleUserInput b0 pl2 f_allfail UserInput.SeekForward = Except.ok (b0, pl2, [])) ∧
    (handleUserInput b0 pl2 f_allfail UserInput.Mute = Except.error Crash.panicked) ∧
    (handleUserInput b0 pl2 f_allfail UserInput.Pause = Except.error Crash.panicked) ∧
    (handleUserInput b0 pl2 f_allfail UserInput.Stop = Except.error Crash.panicked) ∧
    (handleUserInput b0 pl2 f_allfail UserInput.Next = Except.error Crash.panicked) ∧
    (handleUserInput b0 pl2' f_allfail UserInput.Prev = Except.error Crash.panicked) :=
  ⟨(input_failure_behavior b0 pl2 f_allfail).1,
   (input_failure_behavior b0 pl2 f_allfail).2.2.1 EngineError.err rfl,
   (input_failure_behavior b0 pl2 f_allfail).2.2.2.1 EngineError.err rfl,
   (input_failure_behavior b0 pl2 f_allfail).2.2.2.2.1 EngineError.err rfl,
   (input_failure_behavior b0 pl2 f_allfail).2.2.2.2.2.1 EngineError.err rfl,
   (input_failure_behavior b0 pl2' f_allfail).2.2.2.2.2.2 EngineError.err rfl⟩

/-! ## C3 — the cursor is a valid index and `next`/`prev` keep it so -/

/-- C3: a playlist built by `Playlist::from` has a valid cursor, and
`next`/`prev` preserve validity: at the last index `next` returns nothing
and changes nothing, at index 0 `prev` returns nothing and changes nothing,
and otherwise each moves the cursor by exactly one and returns the song at
the new cursor (the store itself is never modified). -/
theorem playlist_cursor_invariant (p : Playlist)
    (hv : p.currently_playing < p.store.length) :
    (∀ results q, Playlist.fromResults results = Except.ok q →
      q.currently_playing < q.store.length) ∧
    ((p.next).2.currently_playing < (p.next).2.store.length) ∧
    ((p.prev).2.currently_playing < (p.prev).2.store.length) ∧
    ((p.next).2.store = p.store) ∧
    ((p.prev).2.store = p.store) ∧
    (p.currently_playing + 1 = p.store.length → p.next = (none, p)) ∧
    (p.currently_playing + 1 < p.store.length →
      p.next = (p.store[p.currently_playing + 1]?,
                { p with currently_playing := p.currently_playing + 1 }) ∧
      (p.next).1.isSome = true) ∧
    (p.currently_playing = 0 → p.prev = (none, p)) ∧
    (∀ k, p.currently_playing = k + 1 →
      p.prev = (p.store[k]?, { p with currently_playing := k }) ∧
      (p.prev).1.isSome = true) := by
  refine ⟨?_, ?_, ?_, ?_, ?_, ?_, ?_, ?_, ?_⟩
  · intro results q h
    by_cases hst : (List.map Prod.snd (sortedEntries results)).isEmpty
    · exact absurd h (by simp [Playlist.fromResults, hst])
    · simp only [Playlist.fromResults, hst, if_false, Bool.false_eq_true] at h
      injection h with h
      subst h
      simp only [List.isEmpty_iff] at hst
      exact List.length_pos.mpr hst
  · cases hg : p.store[p.currently_playing + 1]? with
    | none => simp only [Playlist.next, hg]; exact hv
    | some s =>
      simp only [Playlist.next, hg]
      obtain ⟨hlt, -⟩ := List.getElem?_eq_some.mp hg
      exact hlt
  · cases hc : p.currently_playing with
    | zero => simp only [Playlist.prev, hc]; omega
    | succ k => simp only [Playlist.prev, hc]; omega
  · cases hg : p.store[p.currently_playing + 1]? <;> simp [Playlist.next, hg]
  · cases hc : p.currently_playing <;> simp [Playlist.prev, hc]
  · intro h
    have hg : p.store[p.currently_playing + 1]? = none :=
      List.getElem?_eq_none (by omega)
    simp [Playlist.next, hg]
  · intro h
    have hg : p.store[p.currently_playing + 1]? = some (p.store[p.currently_playing + 1]) :=
      List.getElem?_eq_getElem h
    constructor <;> simp [Playlist.next, hg]
  · intro h
    simp [Playlist.prev, h]
  · intro k hk
    have hklen : k < p.store.length := by omega
    have hg : p.store[k]? = some (p.store[k]) := List.getElem?_eq_getElem hklen
    constructor <;> simp [Playlist.prev, hk, hg]

/-- Witness for C3: a freshly built one-song playlist has a valid cursor;
on the two-song playlist, `next` keeps the cursor valid, `prev` at 0 and
`next` at the last index do nothing, and `prev` at 1 steps back to 0. -/
theorem playlist_cursor_invariant_witness :
    (({ store := [songA], currently_playing := 0 } : Playlist).currently_playing <
      ({ store := [songA], currently_playing := 0 } : Playlist).store.length) ∧
    ((pl2.next).2.currently_playing < (pl2.next).2.store.length) ∧
    (pl2.prev = (none, pl2)) ∧
    (pl2'.next = (none, pl2')) ∧
    (pl2'.prev = (pl2'.store[0]?, { pl2' with currently_playing := 0 })) :=
  ⟨(playlist_cursor_invariant pl2 (by decide)).1 [((0 : Nat), some songA)]
      { store := [songA], currently_playing := 0 } rfl,
   (playlist_cursor_invariant pl2 (by decide)).2.1,
   (playlist_cursor_invariant pl2 (by decide)).2.2.2.2.2.2.2.1 rfl,
   (playlist_cursor_invariant pl2' (by decide)).2.2.2.2.2.1 rfl,
   ((playlist_cursor_invariant pl2' (by decide)).2.2.2.2.2.2.2.2 0 rfl).1⟩

/-! ## C1 — deterministic, sorted playlist order -/

/-- Equal sort keys force equal key components. -/
lemma entryKey_inj {a b : Nat × Song} (h : entryKey a = entryKey b) :
    a.1 = b.1 ∧ a.2.album_info = b.2.album_info ∧ a.2.track_number = b.2.track_number := by
  simp only [entryKey, toLex_inj, Prod.mk.injEq] at h
  exact h

/-- Two entries that do not share all three key components. -/
def keyDistinct (a b : Nat × Song) : Prop :=
  ¬ (a.1 = b.1 ∧ a.2.album_info = b.2.album_info ∧ a.2.track_number = b.2.track_number)

instance : DecidableRel keyDistinct :=
  fun a b => inferInstanceAs (Decidable
    (¬ (a.1 = b.1 ∧ a.2.album_info = b.2.album_info ∧ a.2.track_number = b.2.track_number)))

/-- C1: the entry sequence produced by `Playlist::from` is sorted by
(argument index, album-info string, track number), and — provided no two
surviving entries share all three key components, the accepted ambiguity —
the resulting playlist is the same whatever order the worker results
arrived in. -/
theorem playlist_order_deterministic (results results' : List (Nat × Option Song))
    (hperm : results.Perm results')
    (hkeys : (survivors results).Pairwise keyDistinct) :
    List.Sorted entryLe (sortedEntries results) ∧
    Playlist.fromResults results = Playlist.fromResults results' := by
  have hsorted1 : List.Sorted entryLe (sortedEntries results) :=
    List.sorted_insertionSort entryLe _
  have hsorted2 : List.Sorted entryLe (sortedEntries results') :=
    List.sorted_insertionSort entryLe _
  have hsurv : (survivors results).Perm (survivors results') := hperm.filterMap _
  have hp1 : (sortedEntries results).Perm (survivors results) :=
    List.perm_insertionSort entryLe _
  have hp2 : (sortedEntries results').Perm (survivors results') :=
    List.perm_insertionSort entryLe _
  have hpp : (sortedEntries results).Perm (sortedEntries results') :=
    hp1.trans (hsurv.trans hp2.symm)
  have hkeys' : (survivors results).Pairwise (fun a b => entryKey a ≠ entryKey b) := by
    refine hkeys.imp ?_
    intro _ _ hab he
    exact hab (entryKey_inj he)
  have hsymm : ∀ {x y : Nat × Song}, entryKey x ≠ entryKey y → entryKey y ≠ entryKey x :=
    fun h he => h he.symm
  have hk1 : (sortedEntries results).Pairwise (fun a b => entryKey a ≠ entryKey b) :=
    (List.Perm.pairwise_iff hsymm hp1).mpr hkeys'
  have hk2 : (sortedEntries results').Pairwise (fun a b => entryKey a ≠ entryKey b) :=
    (List.Perm.pairwise_iff hsymm hp2).mpr
      ((List.Perm.pairwise_iff hsymm hsurv).mp hkeys')
  have hpw1 : List.Pairwise entryLe (sortedEntries results) := hsorted1
  have hpw2 : List.Pairwise entryLe (sortedEntries results') := hsorted2
  have hlt1 : List.Sorted entryLt (sortedEntries results) :=
    (hpw1.and hk1).imp (fun hab => lt_of_le_of_ne hab.1 hab.2)
  have hlt2 : List.Sorted entryLt (sortedEntries results') :=
    (hpw2.and hk2).imp (fun hab => lt_of_le_of_ne hab.1 hab.2)
  have heq : sortedEntries results = sortedEntries results' :=
    List.eq_of_perm_of_sorted hpp hlt1 hlt2
  refine ⟨hsorted1, ?_⟩
  unfold Playlist.fromResults
  rw [heq]

/-- Witness for C1: two shuffles of the same three worker results (one of
them a failed extraction) produce the same playlist. -/
theorem playlist_order_deterministic_witness :
    ([((0 : Nat), some songB), (1, none), (0, some songA)] :
        List (Nat × Option Song)).Perm
      [(1, none), (0, some songA), (0, some songB)] ∧
    (survivors [((0 : Nat), some songB), (1, none), (0, some songA)]).Pairwise
      keyDistinct ∧
    (List.Sorted entryLe
        (sortedEntries [((0 : Nat), some songB), (1, none), (0, some songA)]) ∧
      Playlist.fromResults [((0 : Nat), some songB), (1, none), (0, some songA)] =
        Playlist.fromResults [(1, none), (0, some songA), (0, some songB)]) :=
  ⟨by decide, by decide,
   playlist_order_deterministic _ _ (by decide) (by decide)⟩

/-! ## C5 — extraction succeeds exactly when duration and tags precede any
error -/

/-- The updated duration accumulator is known iff it was known before or
the query of this iteration succeeds. -/
lemma stepDur_isSome (step : BusStep) (duration : Option Nat) :
    (stepDur step duration).isSome = true ↔
      duration.isSome = true ∨ step.queryDuration.isSome = true := by
  cases duration <;> simp [stepDur]

/-- The updated tag accumulator is known iff it was known before or this
iteration's message is a tag message. -/
lemma stepTags_isSome (step : BusStep) (tags : Option TagList) :
    (stepTags step tags).isSome = true ↔
      tags.isSome = true ∨ step.msg.isTag = true := by
  cases h : step.msg <;> simp [stepTags, GstMsg.isTag, h]

/-- Specification predicate for the extraction loop: some error-free prefix
of the bus messages supplies (unless already known) both a successful
duration query and a tag message. -/
def observedWithin (steps : List BusStep) (duration : Option Nat)
    (tags : Option TagList) : Prop :=
  ∃ k, k ≤ steps.length ∧
    (∀ s ∈ steps.take k, s.msg.isError = false) ∧
    (duration.isSome = true ∨ ∃ s ∈ steps.take k, s.queryDuration.isSome = true) ∧
    (tags.isSome = true ∨ ∃ s ∈ steps.take k, s.msg.isTag = true)

/-- The extraction loop ends with both accumulators known exactly when an
error-free prefix of the bus messages supplies both. -/
lemma trackInfoLoop_some_iff (steps : List BusStep) :
    ∀ (duration : Option Nat) (tags : Option TagList),
      ((trackInfoLoop steps duration tags).1.isSome = true ∧
        (trackInfoLoop steps duration tags).2.isSome = true) ↔
      observedWithin steps duration tags := by
  induction steps with
  | nil =>
    intro duration tags
    simp [trackInfoLoop, observedWithin]
  | cons step rest ih =>
    intro duration tags
    by_cases herr : step.msg.isError = true
    · constructor
      · intro hd
        simp only [trackInfoLoop, herr, if_true] at hd
        exact ⟨0, by simp, by simp, Or.inl hd.1, Or.inl hd.2⟩
      · rintro ⟨k, hk, hne, hd, ht⟩
        cases k with
        | zero =>
          simp only [List.take_zero, List.not_mem_nil] at hd ht
          have hd' : duration.isSome = true := by
            rcases hd with hd | ⟨s, hs, -⟩
            · exact hd
            · exact hs.elim
          have ht' : tags.isSome = true := by
            rcases ht with ht | ⟨s, hs, -⟩
            · exact ht
            · exact hs.elim
          simp only [trackInfoLoop, herr, if_true]
          exact ⟨hd', ht'⟩
        | succ k' =>
          exact absurd herr (by simpa using hne step (by simp))
    · have herr' : step.msg.isError = false := by
        revert herr
        cases step.msg.isError <;> simp
      by_cases hboth : ((stepDur step duration).isSome && (stepTags step tags).isSome) = true
      · have hres : trackInfoLoop (step :: rest) duration tags =
            (stepDur step duration, stepTags step tags) := by
          simp [trackInfoLoop, herr', hboth]
        rw [hres]
        rw [Bool.and_eq_true] at hboth
        constructor
        · intro _
          refine ⟨1, by simp, ?_, ?_, ?_⟩
          · intro s hs
            rcases (by simpa using hs : s = step) with rfl
            exact herr'
          · rcases (stepDur_isSome step duration).mp hboth.1 with h | h
            · exact Or.inl h
            · exact Or.inr ⟨step, by simp, h⟩
          · rcases (stepTags_isSome step tags).mp hboth.2 with h | h
            · exact Or.inl h
            · exact Or.inr ⟨step, by simp, h⟩
        · intro _
          exact ⟨hboth.1, hboth.2⟩
      · have hres : trackInfoLoop (step :: rest) duration tags =
            trackInfoLoop rest (stepDur step duration) (stepTags step tags) := by
          simp only [trackInfoLoop, herr', Bool.false_eq_true, if_false]
          rw [if_neg (by simpa using hboth)]
        rw [hres, ih]
        constructor
        · rintro ⟨k, hk, hne, hd, ht⟩
          refine ⟨k + 1, by simpa using Nat.succ_le_succ hk, ?_, ?_, ?_⟩
          · intro s hs
            rcases (by simpa using hs : s = step ∨ s ∈ rest.take k) with rfl | hs'
            · exact herr'
            · exact hne s hs'
          · rcases hd with hd | ⟨s, hs, hp⟩
            · rcases (stepDur_isSome step duration).mp hd with h | h
              · exact Or.inl h
              · exact Or.inr ⟨step, by simp, h⟩
            · exact Or.inr ⟨s, by simp [hs], hp⟩
          · rcases ht with ht | ⟨s, hs, hp⟩
            · rcases (stepTags_isSome step tags).mp ht with h | h
              · exact Or.inl h
              · exact Or.inr ⟨step, by simp, h⟩
            · exact Or.inr ⟨s, by simp [hs], hp⟩
        · rintro ⟨k, hk, hne, hd, ht⟩
          cases k with
          | zero =>
            simp only [List.take_zero, List.not_mem_nil] at hd ht
            have hd' : duration.isSome = true := by
              rcases hd with hd | ⟨s, hs, -⟩
              · exact hd
              · exact hs.elim
            have ht' : tags.isSome = true := by
              rcases ht with ht | ⟨s, hs, -⟩
              · exact ht
              · exact hs.elim
            exact ⟨0, by simp, by simp,
              Or.inl ((stepDur_isSome step duration).mpr (Or.inl hd')),
              Or.inl ((stepTags_isSome step tags).mpr (Or.inl ht'))⟩
          | succ k' =>
            refine ⟨k', by simpa using hk, ?_, ?_, ?_⟩
            · intro s hs
              exact hne s (by simp [hs])
            · rcases hd with hd | ⟨s, hs, hp⟩
              · exact Or.inl ((stepDur_isSome step duration).mpr (Or.inl hd))
              · rcases (by simpa using hs : s = step ∨ s ∈ rest.take k') with rfl | hs'
                · exact Or.inl ((stepDur_isSome s duration).mpr (Or.inr hp))
                · exact Or.inr ⟨s, hs', hp⟩
            · rcases ht with ht | ⟨s, hs, hp⟩
              · exact Or.inl ((stepTags_isSome step tags).mpr (Or.inl ht))
              · rcases (by simpa using hs : s = step ∨ s ∈ rest.take k') with rfl | hs'
                · exact Or.inl ((stepTags_isSome s tags).mpr (Or.inr hp))
                · exact Or.inr ⟨s, hs', hp⟩

/-- C5: `Song::from` produces a song exactly when the pipeline and bus came
up and both a duration value and a tag set were observed from the engine
before any engine error message; otherwise — error first, or either datum
still missing when the messages end — it produces nothing, and such a
failed result is simply excluded from the playlist's surviving entries. -/
theorem song_extraction_requires_info (path : String) (pipelineOk busOk : Bool)
    (steps : List BusStep) :
    ((Song.fromPath path pipelineOk busOk steps).isSome = true ↔
      (pipelineOk = true ∧ busOk = true ∧
        ∃ k, k ≤ steps.length ∧
          (∀ s ∈ steps.take k, s.msg.isError = false) ∧
          (∃ s ∈ steps.take k, s.queryDuration.isSome = true) ∧
          (∃ s ∈ steps.take k, s.msg.isTag = true))) ∧
    (∀ (i : Nat) (rest : List (Nat × Option Song)),
      survivors ((i, none) :: rest) = survivors rest) := by
  constructor
  · cases pipelineOk with
    | false => simp [Song.fromPath]
    | true =>
      cases busOk with
      | false => simp [Song.fromPath, get_track_info]
      | true =>
        have h5 := trackInfoLoop_some_iff steps none none
        simp only [Song.fromPath, get_track_info, if_true]
        rcases hres : trackInfoLoop steps none none with ⟨d, t⟩
        rw [hres] at h5
        cases d <;> cases t <;> simp_all [observedWithin] <;> exact h5
  · intro i rest
    rfl

/-- Witness for C5: a single tag message with a readable duration yields a
song; a failed extraction contributes nothing to the surviving entries. -/
theorem song_extraction_requires_info_witness :
    ((Song.fromPath ("/m/a.mp3") true true
        [{ msg := GstMsg.Tag tagsEmpty, queryDuration := some 42 }]).isSome = true) ∧
    (survivors [((3 : Nat), (none : Option Song))] =
      survivors ([] : List (Nat × Option Song))) :=
  ⟨(song_extraction_requires_info ("/m/a.mp3") true true
      [{ msg := GstMsg.Tag tagsEmpty, queryDuration := some 42 }]).1.mpr
      ⟨rfl, rfl, 1, by decide, by decide, by decide, by decide⟩,
   (song_extraction_requires_info ("/m/a.mp3") true true
      [{ msg := GstMsg.Tag tagsEmpty, queryDuration := some 42 }]).2 3 []⟩
